import Mathlib

/-!
# RNGkEpsilonStab: effective diffusivities, field access and the correction step

A shallow embedding of `src/RNGkEpsilonStab/RNGkEpsilonStab.H`.

* Scalars are exact rationals.
* A `volScalarField` is represented by its cell values, one per mesh cell;
  boundary-patch values are not represented.
* A `dimensionedScalar` carries its name and its value; the unit bookkeeping of
  the field library is not represented.
* Members inherited from the base classes (`nut_`, `kMin_`, `epsilonMin_`, and
  the viscosity returned by `nu()`) are fields of the model state.
* The member functions that the header only declares (`read`, `correct`,
  `correctNut`, and the source terms) live in `RNGkEpsilonStab.C`, which is not
  part of the sources; they are modelled from the specification and marked so.
-/

namespace Foam

/-- The scalar type: exact rational arithmetic. -/
abbrev scalar := ℚ

/-- A named scalar constant (`dimensionedScalar`). -/
structure dimensionedScalar where
  name : String
  value : scalar
deriving DecidableEq

/-- A cell-indexed scalar field over a mesh of `nCells` cells. -/
abbrev volScalarField (nCells : ℕ) := Fin nCells → scalar

/-- A three-component vector. -/
structure vector where
  x : scalar
  y : scalar
  z : scalar
deriving DecidableEq

/-- Inner product of two vectors (the `&` operator). -/
def vector.dot (a b : vector) : scalar :=
  a.x * b.x + a.y * b.y + a.z * b.z

/-- The zero vector. -/
def vector.zero : vector := ⟨0, 0, 0⟩

/-- Square of a scalar (`sqr`). -/
def sqr (x : scalar) : scalar := x * x

namespace RASModels

/-- The model state: the protected data of `RNGkEpsilonStab` (header lines
120-137) followed by the base-class members the header uses. -/
structure RNGkEpsilonStab (nCells : ℕ) where
  Cmu_ : dimensionedScalar
  C1_ : dimensionedScalar
  C2_ : dimensionedScalar
  C3_ : dimensionedScalar
  sigmak_ : dimensionedScalar
  sigmaEps_ : dimensionedScalar
  eta0_ : dimensionedScalar
  beta_ : dimensionedScalar
  alphaBS_ : dimensionedScalar
  lambda2_ : dimensionedScalar
  pOmegaSmall_ : dimensionedScalar
  k_ : volScalarField nCells
  epsilon_ : volScalarField nCells
  gField_ : vector
  nut_ : volScalarField nCells
  kMin_ : scalar
  epsilonMin_ : scalar
  nu : volScalarField nCells

namespace RNGkEpsilonStab

variable {nCells : ℕ}

/-- Calling a `const` member function: the returned value, and the object after
the call, which a `const` function leaves as it was. -/
def callConst {α : Type} (f : RNGkEpsilonStab nCells → α) (m : RNGkEpsilonStab nCells) :
    α × RNGkEpsilonStab nCells :=
  (f m, m)

/-- Header lines 210-213: `k()` returns `k_`. -/
def k (m : RNGkEpsilonStab nCells) : volScalarField nCells := m.k_

/-- Header lines 216-219: `epsilon()` returns `epsilon_`. -/
def epsilon (m : RNGkEpsilonStab nCells) : volScalarField nCells := m.epsilon_

/-- Header lines 184-194: `DkEff()`,
`(Cmu_*sqr(this->k())/this->epsilon())/sigmak_ + this->nu()`. -/
def DkEff (m : RNGkEpsilonStab nCells) : volScalarField nCells :=
  fun c => (m.Cmu_.value * sqr (m.k c) / m.epsilon c) / m.sigmak_.value + m.nu c

/-- Header lines 197-207: `DepsilonEff()`,
`(Cmu_*sqr(this->k())/this->epsilon())/sigmak_ + this->nu()`. -/
def DepsilonEff (m : RNGkEpsilonStab nCells) : volScalarField nCells :=
  fun c => (m.Cmu_.value * sqr (m.k c) / m.epsilon c) / m.sigmak_.value + m.nu c

/-- The floor bound on the two transported fields. -/
def Bounded (m : RNGkEpsilonStab nCells) : Prop :=
  ∀ c, m.kMin_ ≤ m.k_ c ∧ m.epsilonMin_ ≤ m.epsilon_ c

instance (m : RNGkEpsilonStab nCells) : Decidable (Bounded m) := by
  unfold Bounded
  infer_instance

/-- A configuration source: the coefficient block, as key and value entries. -/
abbrev dictionary := List (String × scalar)

/-- Modelled from the spec: re-reading one coefficient, a step of `read()`
(`RNGkEpsilonStab.C` is not part of the sources). The value is taken from the
configuration when the key is there and falls back to the compiled-in default
when it is missing; the coefficient object keeps its name. -/
def readCoeff (dict : dictionary) (key : String) (dflt : scalar) (c : dimensionedScalar) :
    dimensionedScalar :=
  { c with value := (dict.lookup key).getD dflt }

/-- The ten keys of the coefficient block with the defaults documented in the
header (lines 61-76). -/
def defaultCoeffs : dictionary :=
  [("Cmu", 0.0845), ("C1", 1.42), ("C2", 1.68), ("C3", -0.33), ("sigmak", 0.71942),
   ("sigmaEps", 0.71942), ("eta0", 4.38), ("beta", 0.012), ("alphaBS", 1.36),
   ("lambda2", 0.05)]

/-- The values of the ten configurable coefficients, in the order of the block. -/
def coeffValues (m : RNGkEpsilonStab nCells) : List scalar :=
  [m.Cmu_.value, m.C1_.value, m.C2_.value, m.C3_.value, m.sigmak_.value,
   m.sigmaEps_.value, m.eta0_.value, m.beta_.value, m.alphaBS_.value, m.lambda2_.value]

/-- What `read()` hands back: the model with its coefficients re-read, whether
any value changed, and the keys reported as missing. -/
structure ReadResult (nCells : ℕ) where
  model : RNGkEpsilonStab nCells
  changed : Bool
  missing : List String

/-- Modelled from the spec: `read()`, declared at header line 181 and defined in
`RNGkEpsilonStab.C`, which is not part of the sources. Each of the ten keys is
re-read into its existing coefficient object; a missing key is reported and the
documented default is used; the result says whether any value changed. -/
def read (dict : dictionary) (m : RNGkEpsilonStab nCells) : ReadResult nCells :=
  let m1 : RNGkEpsilonStab nCells :=
    { m with
      Cmu_ := readCoeff dict "Cmu" 0.0845 m.Cmu_
      C1_ := readCoeff dict "C1" 1.42 m.C1_
      C2_ := readCoeff dict "C2" 1.68 m.C2_
      C3_ := readCoeff dict "C3" (-0.33) m.C3_
      sigmak_ := readCoeff dict "sigmak" 0.71942 m.sigmak_
      sigmaEps_ := readCoeff dict "sigmaEps" 0.71942 m.sigmaEps_
      eta0_ := readCoeff dict "eta0" 4.38 m.eta0_
      beta_ := readCoeff dict "beta" 0.012 m.beta_
      alphaBS_ := readCoeff dict "alphaBS" 1.36 m.alphaBS_
      lambda2_ := readCoeff dict "lambda2" 0.05 m.lambda2_ }
  { model := m1
    changed := decide (coeffValues m1 ≠ coeffValues m)
    missing := (defaultCoeffs.map Prod.fst).filter (fun key => (dict.lookup key).isNone) }

/-- The flow data consumed from the surrounding solver, cell by cell: strain-rate
magnitude, density gradient, reference density, and the three terms whose form
the specification leaves to the implementer (the stabilisation factor, the
strain-based RNG correction as a function of `eta0`, `beta` and `eta`, and the
compressibility correction). -/
structure FlowState (nCells : ℕ) where
  magS : volScalarField nCells
  gradRho : Fin nCells → vector
  rhoRef : scalar
  stabFactor : volScalarField nCells
  rngCorrection : scalar → scalar → scalar → scalar
  compression : volScalarField nCells

/-- Modelled from the spec: shear production `P_k = nut * |S|²` (section 4.2 a);
the defining code is in `RNGkEpsilonStab.C`, not part of the sources. -/
def shearProduction (fs : FlowState nCells) (m : RNGkEpsilonStab nCells) :
    volScalarField nCells :=
  fun c => m.nut_ c * sqr (fs.magS c)

/-- Modelled from the spec: buoyancy production
`G = -(nut/sigma_k) * (gravity . gradient of density) / reference density`
(section 4.2 b); the defining code is in `RNGkEpsilonStab.C`, not part of the
sources. -/
def buoyancyProduction (fs : FlowState nCells) (m : RNGkEpsilonStab nCells) :
    volScalarField nCells :=
  fun c => -(m.nut_ c / m.sigmak_.value) * (m.gField_.dot (fs.gradRho c)) / fs.rhoRef

/-- Modelled from the spec: the explicit production term of the k equation,
attenuated shear production plus `G` plus the compressibility correction
(section 4.3); the defining code is in `RNGkEpsilonStab.C`, not part of the
sources. -/
def kProduction (fs : FlowState nCells) (m : RNGkEpsilonStab nCells) : volScalarField nCells :=
  fun c => fs.stabFactor c * shearProduction fs m c + buoyancyProduction fs m c
    + fs.compression c

/-- Modelled from the spec: the explicit production term of the epsilon
equation, `C1 * (P_k + buoyancy contribution) * epsilon / k` (section 4.3), the
buoyancy contribution being `G` weighted by the coefficient `C3`, and epsilon
guarded by its floor; the defining code is in `RNGkEpsilonStab.C`, not part of
the sources. -/
def epsilonProduction (fs : FlowState nCells) (m : RNGkEpsilonStab nCells) :
    volScalarField nCells :=
  fun c => m.C1_.value
    * (fs.stabFactor c * shearProduction fs m c + m.C3_.value * buoyancyProduction fs m c)
    * max (m.epsilon_ c) m.epsilonMin_ / m.k_ c

/-- The explicit production of the k equation in the classical model without
buoyancy. -/
def kProductionNonBuoyant (fs : FlowState nCells) (m : RNGkEpsilonStab nCells) :
    volScalarField nCells :=
  fun c => fs.stabFactor c * shearProduction fs m c + fs.compression c

/-- The explicit production of the epsilon equation in the classical model
without buoyancy. -/
def epsilonProductionNonBuoyant (fs : FlowState nCells) (m : RNGkEpsilonStab nCells) :
    volScalarField nCells :=
  fun c => m.C1_.value * (fs.stabFactor c * shearProduction fs m c)
    * max (m.epsilon_ c) m.epsilonMin_ / m.k_ c

/-- An assembled transport equation, as far as this model determines it: the
effective diffusivity, the implicit destruction coefficient and the explicit
production. The temporal and convection operators belong to the solver. -/
structure fvScalarMatrix (nCells : ℕ) where
  diffusivity : volScalarField nCells
  destruction : volScalarField nCells
  production : volScalarField nCells

/-- Modelled from the spec: the epsilon equation (section 4.3), diffusivity
`DepsilonEff`, implicit destruction `(C2 corrected) * epsilon / k` times epsilon,
explicit production as above; the assembling code is in `RNGkEpsilonStab.C`, not
part of the sources. -/
def epsilonEqn (fs : FlowState nCells) (m : RNGkEpsilonStab nCells) : fvScalarMatrix nCells where
  diffusivity := DepsilonEff m
  destruction := fun c =>
    (m.C2_.value + fs.rngCorrection m.eta0_.value m.beta_.value
        (fs.magS c * m.k_ c / max (m.epsilon_ c) m.epsilonMin_))
      * m.epsilon_ c / m.k_ c
  production := epsilonProduction fs m

/-- Modelled from the spec: the k equation (section 4.3), diffusivity `DkEff`,
implicit destruction `epsilon / k`, explicit production `prod`, which step 1 of
the correction evaluated; the assembling code is in `RNGkEpsilonStab.C`, not
part of the sources. -/
def kEqn (prod : volScalarField nCells) (m : RNGkEpsilonStab nCells) : fvScalarMatrix nCells where
  diffusivity := DkEff m
  destruction := fun c => m.epsilon_ c / m.k_ c
  production := prod

/-- Modelled from the spec: clipping a field to its floor (section 4.4, steps 3
and 4). -/
def bound (f : volScalarField nCells) (fMin : scalar) : volScalarField nCells :=
  fun c => max (f c) fMin

/-- Modelled from the spec: `correctNut()`, declared at header line 141 and
defined in `RNGkEpsilonStab.C`, which is not part of the sources. The eddy
viscosity is recomputed as `Cmu * k² / epsilon` from the current fields and
clipped to a non-negative floor (sections 3 and 4.4, step 5). -/
def correctNut (m : RNGkEpsilonStab nCells) : RNGkEpsilonStab nCells :=
  { m with nut_ := fun c => max (m.Cmu_.value * sqr (m.k_ c) / m.epsilon_ c) 0 }

/-- The linear solve that did not succeed. -/
inductive SolverDivergence where
  | epsilonEquation
  | kEquation
deriving DecidableEq

/-- What a `correct()` call leaves behind: the model state after the call and,
when a linear solve failed, the failure handed to the caller. -/
structure CorrectOutcome (nCells : ℕ) where
  state : RNGkEpsilonStab nCells
  failure : Option SolverDivergence

/-- Modelled from the spec: `correct()`, declared at header line 222 and defined
in `RNGkEpsilonStab.C`, which is not part of the sources. The steps of section
4.4 in order: production is evaluated, the epsilon equation is assembled and
solved by the external service `solve`, epsilon is clipped to its floor, the k
equation is assembled with the updated epsilon and solved, k is clipped to its
floor, the eddy viscosity is recomputed. A failed solve ends the call and
leaves the fields at the values they had at that point. -/
def correct (solve : fvScalarMatrix nCells → Option (volScalarField nCells))
    (fs : FlowState nCells) (m : RNGkEpsilonStab nCells) : CorrectOutcome nCells :=
  let prodK := kProduction fs m
  match solve (epsilonEqn fs m) with
  | none => { state := m, failure := some SolverDivergence.epsilonEquation }
  | some eps =>
    let m1 : RNGkEpsilonStab nCells := { m with epsilon_ := bound eps m.epsilonMin_ }
    match solve (kEqn prodK m1) with
    | none => { state := m1, failure := some SolverDivergence.kEquation }
    | some kk =>
      let m2 : RNGkEpsilonStab nCells := { m1 with k_ := bound kk m1.kMin_ }
      { state := correctNut m2, failure := none }

end RNGkEpsilonStab

open RNGkEpsilonStab

/-- A one-cell sample state: every coefficient at its documented default except
`sigmak = 1` and `sigmaEps = 2`, with `Cmu = 1`, `k = 2`, `epsilon = 1`, `nu = 0`. -/
def sampleState : RNGkEpsilonStab 1 where
  Cmu_ := ⟨"Cmu", 1⟩
  C1_ := ⟨"C1", 1.42⟩
  C2_ := ⟨"C2", 1.68⟩
  C3_ := ⟨"C3", -0.33⟩
  sigmak_ := ⟨"sigmak", 1⟩
  sigmaEps_ := ⟨"sigmaEps", 2⟩
  eta0_ := ⟨"eta0", 4.38⟩
  beta_ := ⟨"beta", 0.012⟩
  alphaBS_ := ⟨"alphaBS", 1.36⟩
  lambda2_ := ⟨"lambda2", 0.05⟩
  pOmegaSmall_ := ⟨"pOmegaSmall", 0⟩
  k_ := fun _ => 2
  epsilon_ := fun _ => 1
  gField_ := ⟨0, 0, -9.81⟩
  nut_ := fun _ => 4
  kMin_ := 1 / 1000
  epsilonMin_ := 1 / 1000
  nu := fun _ => 0

/-- A second one-cell state: `sampleState` with another `sigmaEps`, another
stored eddy viscosity and another gravity vector. -/
def sampleStateOther : RNGkEpsilonStab 1 :=
  { sampleState with sigmaEps_ := ⟨"sigmaEps", 5⟩, nut_ := fun _ => 7, gField_ := ⟨0, 0, 0⟩ }

/-- A one-cell sample flow state with zero density gradient. -/
def sampleFlow : FlowState 1 where
  magS := fun _ => 3
  gradRho := fun _ => vector.zero
  rhoRef := 1000
  stabFactor := fun _ => 1
  rngCorrection := fun _ _ _ => 0
  compression := fun _ => 0

/-- A sample solve service: it returns the zero field for every equation, so
that both clips are active. -/
def sampleSolve : fvScalarMatrix 1 → Option (volScalarField 1) :=
  fun _ => some (fun _ => 0)

/-- A sample configuration that sets `C1` only. -/
def sampleDict : dictionary := [("C1", 2)]

end RASModels
end Foam

namespace Foam.RASModels.RNGkEpsilonStab

variable {nCells : ℕ}

/-! ## Shared lemmas -/

theorem sqr_nonneg (x : scalar) : 0 ≤ sqr x := by
  unfold sqr
  exact mul_self_nonneg x

theorem sqr_eq_pow (x : scalar) : sqr x = x ^ 2 := by
  unfold sqr
  ring

theorem nutFormula_nonneg (Cmu kc ec : scalar) (hCmu : 0 ≤ Cmu) (he : 0 < ec) :
    0 ≤ Cmu * sqr kc / ec :=
  div_nonneg (mul_nonneg hCmu (sqr_nonneg kc)) he.le

theorem correct_of_solved (solve : fvScalarMatrix nCells → Option (volScalarField nCells))
    (fs : FlowState nCells) (m : RNGkEpsilonStab nCells) (e kk : volScalarField nCells)
    (h1 : solve (epsilonEqn fs m) = some e)
    (h2 : solve (kEqn (kProduction fs m) { m with epsilon_ := bound e m.epsilonMin_ }) = some kk) :
    correct solve fs m =
      { state := correctNut
          { m with epsilon_ := bound e m.epsilonMin_, k_ := bound kk m.kMin_ }
        failure := none } := by
  simp only [correct, h1, h2]

/-! ## The accessors of the header -/

/-- C1: at the one-cell state `sampleState` (Cmu 1, k 2, epsilon 1, sigmak 1,
sigmaEps 2, nu 0) `DepsilonEff()` evaluates to 4, which is nut/sigmak + nu,
while nut/sigmaEps + nu with nut = Cmu*k^2/epsilon is 2: the function divides by
`sigmak_` where the claim has `sigmaEps_`. -/
theorem DepsilonEff_sample_divides_by_sigmak :
    sampleState.epsilon_ 0 ≠ 0 ∧
    DepsilonEff sampleState 0 = 4 ∧
    (sampleState.Cmu_.value * (sampleState.k_ 0) ^ 2 / sampleState.epsilon_ 0)
        / sampleState.sigmaEps_.value + sampleState.nu 0 = 2 ∧
    DepsilonEff sampleState 0 ≠
      (sampleState.Cmu_.value * (sampleState.k_ 0) ^ 2 / sampleState.epsilon_ 0)
        / sampleState.sigmaEps_.value + sampleState.nu 0 := by
  simp only [DepsilonEff, RNGkEpsilonStab.k, RNGkEpsilonStab.epsilon, sampleState, sqr]
  norm_num

/-- C2: in every cell whose epsilon is non-zero, `DkEff()` is nut/sigmak + nu,
where nut is the exact quotient Cmu*k^2/epsilon of the current k and epsilon
(so nut*epsilon = Cmu*k^2). -/
theorem DkEff_eq_nut_div_sigmak_add_nu (m : RNGkEpsilonStab nCells) (c : Fin nCells)
    (h : m.epsilon_ c ≠ 0) :
    DkEff m c = (m.Cmu_.value * (m.k_ c) ^ 2 / m.epsilon_ c) / m.sigmak_.value + m.nu c ∧
    (m.Cmu_.value * (m.k_ c) ^ 2 / m.epsilon_ c) * m.epsilon_ c
      = m.Cmu_.value * (m.k_ c) ^ 2 := by
  refine ⟨?_, div_mul_cancel₀ _ h⟩
  simp only [DkEff, RNGkEpsilonStab.k, RNGkEpsilonStab.epsilon, sqr_eq_pow]

theorem DkEff_eq_nut_div_sigmak_add_nu_witness :
    sampleState.epsilon_ 0 ≠ 0 ∧
    (DkEff sampleState 0
        = (sampleState.Cmu_.value * (sampleState.k_ 0) ^ 2 / sampleState.epsilon_ 0)
            / sampleState.sigmak_.value + sampleState.nu 0 ∧
      (sampleState.Cmu_.value * (sampleState.k_ 0) ^ 2 / sampleState.epsilon_ 0)
          * sampleState.epsilon_ 0
        = sampleState.Cmu_.value * (sampleState.k_ 0) ^ 2) :=
  ⟨by simp [sampleState],
   DkEff_eq_nut_div_sigmak_add_nu sampleState 0 (by simp [sampleState])⟩

/-- C3: a second call of `DkEff()` right after a first one returns the same
field, the call leaves the model as it was, and the result is determined by
Cmu, sigmak, k, epsilon and nu alone: two states that agree on these five give
the same `DkEff()`. -/
theorem DkEff_twice_same (m : RNGkEpsilonStab nCells) :
    (callConst DkEff (callConst DkEff m).2).1 = (callConst DkEff m).1 ∧
    (callConst DkEff m).2 = m ∧
    (callConst DkEff (callConst DkEff m).2).2 = m ∧
    ∀ m2 : RNGkEpsilonStab nCells,
      m2.Cmu_.value = m.Cmu_.value → m2.sigmak_.value = m.sigmak_.value →
      m2.k_ = m.k_ → m2.epsilon_ = m.epsilon_ → m2.nu = m.nu →
      DkEff m2 = DkEff m := by
  refine ⟨rfl, rfl, rfl, ?_⟩
  intro m2 hC hs hk he hn
  funext c
  simp only [DkEff, RNGkEpsilonStab.k, RNGkEpsilonStab.epsilon, hC, hs, hk, he, hn]

theorem DkEff_twice_same_witness :
    sampleStateOther.sigmaEps_ ≠ sampleState.sigmaEps_ ∧
    DkEff sampleStateOther = DkEff sampleState :=
  ⟨by decide,
   (DkEff_twice_same sampleState).2.2.2 sampleStateOther rfl rfl rfl rfl rfl⟩

/-- C4: `k()` returns the stored field `k_` and `epsilon()` returns the stored
field `epsilon_`, and neither call changes the model. -/
theorem k_epsilon_return_stored_fields (m : RNGkEpsilonStab nCells) :
    (callConst RNGkEpsilonStab.k m).1 = m.k_ ∧
    (callConst RNGkEpsilonStab.epsilon m).1 = m.epsilon_ ∧
    (callConst RNGkEpsilonStab.k m).2 = m ∧
    (callConst RNGkEpsilonStab.epsilon m).2 = m :=
  ⟨rfl, rfl, rfl, rfl⟩

/-- C9: when Cmu > 0, sigmak > 0, nu >= 0 in every cell and every cell has
k >= k_floor > 0 and epsilon >= epsilon_floor > 0, the two divisors of `DkEff()`
and `DepsilonEff()` (epsilon and sigmak) are non-zero in every cell and both
returned values are at least nu, hence non-negative. -/
theorem diffusivities_divisors_nonzero_and_ge_nu (m : RNGkEpsilonStab nCells)
    (hCmu : 0 < m.Cmu_.value) (hsig : 0 < m.sigmak_.value) (hnu : ∀ c, 0 ≤ m.nu c)
    (hk : 0 < m.kMin_) (he : 0 < m.epsilonMin_) (hb : Bounded m) :
    ∀ c, 0 < m.k c ∧ m.epsilon c ≠ 0 ∧ m.sigmak_.value ≠ 0 ∧
      m.nu c ≤ DkEff m c ∧ 0 ≤ DkEff m c ∧
      m.nu c ≤ DepsilonEff m c ∧ 0 ≤ DepsilonEff m c := by
  intro c
  have hec : 0 < m.epsilon_ c := lt_of_lt_of_le he (hb c).2
  have hkc : 0 < m.k_ c := lt_of_lt_of_le hk (hb c).1
  have hq : 0 ≤ (m.Cmu_.value * sqr (m.k_ c) / m.epsilon_ c) / m.sigmak_.value :=
    div_nonneg (nutFormula_nonneg _ _ _ hCmu.le hec) hsig.le
  have hD : m.nu c ≤ DkEff m c := by
    simp only [DkEff, RNGkEpsilonStab.k, RNGkEpsilonStab.epsilon]
    linarith
  have hE : m.nu c ≤ DepsilonEff m c := by
    simp only [DepsilonEff, RNGkEpsilonStab.k, RNGkEpsilonStab.epsilon]
    linarith
  exact ⟨hkc, ne_of_gt hec, ne_of_gt hsig, hD, le_trans (hnu c) hD, hE, le_trans (hnu c) hE⟩

theorem diffusivities_divisors_nonzero_and_ge_nu_witness :
    (0 < sampleState.Cmu_.value ∧ 0 < sampleState.sigmak_.value ∧
      (∀ c, 0 ≤ sampleState.nu c) ∧ 0 < sampleState.kMin_ ∧ 0 < sampleState.epsilonMin_ ∧
      Bounded sampleState) ∧
    ∀ c, 0 < sampleState.k c ∧ sampleState.epsilon c ≠ 0 ∧ sampleState.sigmak_.value ≠ 0 ∧
      sampleState.nu c ≤ DkEff sampleState c ∧ 0 ≤ DkEff sampleState c ∧
      sampleState.nu c ≤ DepsilonEff sampleState c ∧ 0 ≤ DepsilonEff sampleState c :=
  ⟨⟨by simp [sampleState], by simp [sampleState], by simp [sampleState],
    by simp [sampleState], by simp [sampleState],
    by intro c; simp only [sampleState]; norm_num⟩,
   diffusivities_divisors_nonzero_and_ge_nu sampleState (by simp [sampleState])
    (by simp [sampleState]) (by simp [sampleState]) (by simp [sampleState])
    (by simp [sampleState]) (by intro c; simp only [sampleState]; norm_num)⟩

/-- C10: `DepsilonEff()` and `DkEff()` return the same value in every cell, and
`DepsilonEff()` does not depend on sigmaEps: replacing the `sigmaEps_`
coefficient of a state by any other one leaves `DepsilonEff()` as it was. -/
theorem DepsilonEff_eq_DkEff (m : RNGkEpsilonStab nCells) :
    (∀ c, DepsilonEff m c = DkEff m c) ∧
    ∀ s : dimensionedScalar, ∀ c, DepsilonEff { m with sigmaEps_ := s } c = DepsilonEff m c :=
  ⟨fun _ => rfl, fun _ _ => rfl⟩

/-! ## The member functions modelled from the specification -/

/-- C5: with strictly positive floors, a `correct()` call leaves the floors as
they were; when the call completes, every cell has k >= k_floor > 0 and
epsilon >= epsilon_floor > 0 whatever the state was before; and when the state
before the call satisfies the floor bound, the state after the call does too,
also when a linear solve failed. -/
theorem correct_preserves_floor_bound
    (solve : fvScalarMatrix nCells → Option (volScalarField nCells))
    (fs : FlowState nCells) (m : RNGkEpsilonStab nCells)
    (hk : 0 < m.kMin_) (he : 0 < m.epsilonMin_) :
    ((correct solve fs m).state.kMin_ = m.kMin_ ∧
      (correct solve fs m).state.epsilonMin_ = m.epsilonMin_) ∧
    ((correct solve fs m).failure = none →
      ∀ c, m.kMin_ ≤ (correct solve fs m).state.k_ c ∧
        m.epsilonMin_ ≤ (correct solve fs m).state.epsilon_ c ∧
        0 < (correct solve fs m).state.k_ c ∧ 0 < (correct solve fs m).state.epsilon_ c) ∧
    (Bounded m →
      ∀ c, m.kMin_ ≤ (correct solve fs m).state.k_ c ∧
        m.epsilonMin_ ≤ (correct solve fs m).state.epsilon_ c ∧
        0 < (correct solve fs m).state.k_ c ∧ 0 < (correct solve fs m).state.epsilon_ c) := by
  cases h1 : solve (epsilonEqn fs m) with
  | none =>
    have hc : correct solve fs m
        = { state := m, failure := some SolverDivergence.epsilonEquation } := by
      simp only [correct, h1]
    rw [hc]
    refine ⟨⟨rfl, rfl⟩, fun h => by simp at h, fun hb c => ?_⟩
    exact ⟨(hb c).1, (hb c).2, lt_of_lt_of_le hk (hb c).1, lt_of_lt_of_le he (hb c).2⟩
  | some e =>
    cases h2 : solve (kEqn (kProduction fs m) { m with epsilon_ := bound e m.epsilonMin_ }) with
    | none =>
      have hc : correct solve fs m
          = { state := { m with epsilon_ := bound e m.epsilonMin_ }
              failure := some SolverDivergence.kEquation } := by
        simp only [correct, h1, h2]
      rw [hc]
      refine ⟨⟨rfl, rfl⟩, fun h => by simp at h, fun hb c => ?_⟩
      have hle : m.epsilonMin_ ≤ bound e m.epsilonMin_ c := le_max_right _ _
      exact ⟨(hb c).1, hle, lt_of_lt_of_le hk (hb c).1, lt_of_lt_of_le he hle⟩
    | some kk =>
      rw [correct_of_solved solve fs m e kk h1 h2]
      have hall : ∀ c, m.kMin_ ≤ bound kk m.kMin_ c ∧ m.epsilonMin_ ≤ bound e m.epsilonMin_ c ∧
          0 < bound kk m.kMin_ c ∧ 0 < bound e m.epsilonMin_ c := by
        intro c
        have h3 : m.kMin_ ≤ bound kk m.kMin_ c := le_max_right _ _
        have h4 : m.epsilonMin_ ≤ bound e m.epsilonMin_ c := le_max_right _ _
        exact ⟨h3, h4, lt_of_lt_of_le hk h3, lt_of_lt_of_le he h4⟩
      exact ⟨⟨rfl, rfl⟩, fun _ => hall, fun _ => hall⟩

theorem correct_preserves_floor_bound_witness :
    (0 < sampleState.kMin_ ∧ 0 < sampleState.epsilonMin_ ∧
      (correct sampleSolve sampleFlow sampleState).failure = none) ∧
    ∀ c, sampleState.kMin_ ≤ (correct sampleSolve sampleFlow sampleState).state.k_ c ∧
      sampleState.epsilonMin_ ≤ (correct sampleSolve sampleFlow sampleState).state.epsilon_ c ∧
      0 < (correct sampleSolve sampleFlow sampleState).state.k_ c ∧
      0 < (correct sampleSolve sampleFlow sampleState).state.epsilon_ c :=
  ⟨⟨by simp [sampleState], by simp [sampleState], rfl⟩,
   (correct_preserves_floor_bound sampleSolve sampleFlow sampleState
      (by simp [sampleState]) (by simp [sampleState])).2.1 rfl⟩

/-- C6: when both linear solves return, `correct()` completes, k and epsilon of
the resulting state are the solved fields clipped to their floors, epsilon is
non-zero, and the stored eddy viscosity equals Cmu*k^2/epsilon of these bounded
fields in every cell (Cmu non-negative as the coefficient invariant has it, the
epsilon floor strictly positive). -/
theorem correct_nut_matches_formula
    (solve : fvScalarMatrix nCells → Option (volScalarField nCells))
    (fs : FlowState nCells) (m : RNGkEpsilonStab nCells) (e kk : volScalarField nCells)
    (hCmu : 0 ≤ m.Cmu_.value) (he : 0 < m.epsilonMin_)
    (h1 : solve (epsilonEqn fs m) = some e)
    (h2 : solve (kEqn (kProduction fs m) { m with epsilon_ := bound e m.epsilonMin_ })
      = some kk) :
    (correct solve fs m).failure = none ∧
    (correct solve fs m).state.Cmu_ = m.Cmu_ ∧
    ∀ c, (correct solve fs m).state.k_ c = max (kk c) m.kMin_ ∧
      (correct solve fs m).state.epsilon_ c = max (e c) m.epsilonMin_ ∧
      (correct solve fs m).state.epsilon_ c ≠ 0 ∧
      (correct solve fs m).state.nut_ c
        = (correct solve fs m).state.Cmu_.value * ((correct solve fs m).state.k_ c) ^ 2
            / (correct solve fs m).state.epsilon_ c := by
  rw [correct_of_solved solve fs m e kk h1 h2]
  refine ⟨rfl, rfl, fun c => ⟨rfl, rfl, ?_, ?_⟩⟩
  · have h4 : m.epsilonMin_ ≤ bound e m.epsilonMin_ c := le_max_right _ _
    exact ne_of_gt (lt_of_lt_of_le he h4)
  · have h4 : m.epsilonMin_ ≤ bound e m.epsilonMin_ c := le_max_right _ _
    have h5 : 0 ≤ m.Cmu_.value * sqr (bound kk m.kMin_ c) / bound e m.epsilonMin_ c :=
      nutFormula_nonneg _ _ _ hCmu (lt_of_lt_of_le he h4)
    simp only [correctNut]
    rw [max_eq_left h5, sqr_eq_pow]

theorem correct_nut_matches_formula_witness :
    (0 ≤ sampleState.Cmu_.value ∧ 0 < sampleState.epsilonMin_) ∧
    (correct sampleSolve sampleFlow sampleState).failure = none ∧
    (correct sampleSolve sampleFlow sampleState).state.Cmu_ = sampleState.Cmu_ ∧
    ∀ c, (correct sampleSolve sampleFlow sampleState).state.k_ c
        = max ((fun _ => 0 : volScalarField 1) c) sampleState.kMin_ ∧
      (correct sampleSolve sampleFlow sampleState).state.epsilon_ c
        = max ((fun _ => 0 : volScalarField 1) c) sampleState.epsilonMin_ ∧
      (correct sampleSolve sampleFlow sampleState).state.epsilon_ c ≠ 0 ∧
      (correct sampleSolve sampleFlow sampleState).state.nut_ c
        = (correct sampleSolve sampleFlow sampleState).state.Cmu_.value
            * ((correct sampleSolve sampleFlow sampleState).state.k_ c) ^ 2
            / (correct sampleSolve sampleFlow sampleState).state.epsilon_ c :=
  ⟨⟨by simp [sampleState], by simp [sampleState]⟩,
   correct_nut_matches_formula sampleSolve sampleFlow sampleState (fun _ => 0) (fun _ => 0)
    (by simp [sampleState]) (by simp [sampleState]) rfl rfl⟩

/-- C7: for each of the ten documented keys, a configuration that omits the key
makes `read()` return a model whose coefficient has the documented default
(Cmu 0.0845, C1 1.42, C2 1.68, C3 -0.33, sigmak 0.71942, sigmaEps 0.71942,
eta0 4.38, beta 0.012, alphaBS 1.36, lambda2 0.05); `read()` returns a model
for every configuration. -/
theorem read_missing_key_gives_default (dict : dictionary) (m : RNGkEpsilonStab nCells) :
    (dict.lookup "Cmu" = none → (read dict m).model.Cmu_.value = 0.0845) ∧
    (dict.lookup "C1" = none → (read dict m).model.C1_.value = 1.42) ∧
    (dict.lookup "C2" = none → (read dict m).model.C2_.value = 1.68) ∧
    (dict.lookup "C3" = none → (read dict m).model.C3_.value = -0.33) ∧
    (dict.lookup "sigmak" = none → (read dict m).model.sigmak_.value = 0.71942) ∧
    (dict.lookup "sigmaEps" = none → (read dict m).model.sigmaEps_.value = 0.71942) ∧
    (dict.lookup "eta0" = none → (read dict m).model.eta0_.value = 4.38) ∧
    (dict.lookup "beta" = none → (read dict m).model.beta_.value = 0.012) ∧
    (dict.lookup "alphaBS" = none → (read dict m).model.alphaBS_.value = 1.36) ∧
    (dict.lookup "lambda2" = none → (read dict m).model.lambda2_.value = 0.05) := by
  refine ⟨?_, ?_, ?_, ?_, ?_, ?_, ?_, ?_, ?_, ?_⟩ <;>
  · intro h
    simp only [read, readCoeff, h, Option.getD_none]

theorem read_missing_key_gives_default_witness :
    (sampleDict.lookup "Cmu" = none ∧ sampleDict.lookup "sigmaEps" = none) ∧
    (read sampleDict sampleState).model.Cmu_.value = 0.0845 ∧
    (read sampleDict sampleState).model.sigmaEps_.value = 0.71942 :=
  ⟨⟨by decide, by decide⟩,
   (read_missing_key_gives_default sampleDict sampleState).1 (by decide),
   (read_missing_key_gives_default sampleDict sampleState).2.2.2.2.2.1 (by decide)⟩

/-- C8: when the density gradient is zero in every cell, the buoyancy production
G is zero in every cell, whatever the gravity vector, nut and sigmak are, and
the explicit production terms of the k and the epsilon equation are those of
the model without buoyancy. -/
theorem buoyancyProduction_zero_of_uniform_density (fs : FlowState nCells)
    (m : RNGkEpsilonStab nCells) (h : ∀ c, fs.gradRho c = vector.zero) :
    ∀ c, buoyancyProduction fs m c = 0 ∧
      kProduction fs m c = kProductionNonBuoyant fs m c ∧
      epsilonProduction fs m c = epsilonProductionNonBuoyant fs m c := by
  intro c
  have hG : buoyancyProduction fs m c = 0 := by
    simp only [buoyancyProduction, h c, vector.dot, vector.zero, mul_zero, add_zero, zero_div]
  refine ⟨hG, ?_, ?_⟩
  · simp only [kProduction, kProductionNonBuoyant, hG, add_zero]
  · simp only [epsilonProduction, epsilonProductionNonBuoyant, hG, mul_zero, add_zero]

theorem buoyancyProduction_zero_of_uniform_density_witness :
    (∀ c, sampleFlow.gradRho c = vector.zero) ∧
    ∀ c, buoyancyProduction sampleFlow sampleState c = 0 ∧
      kProduction sampleFlow sampleState c = kProductionNonBuoyant sampleFlow sampleState c ∧
      epsilonProduction sampleFlow sampleState c
        = epsilonProductionNonBuoyant sampleFlow sampleState c :=
  ⟨fun _ => rfl, buoyancyProduction_zero_of_uniform_density sampleFlow sampleState (fun _ => rfl)⟩

end Foam.RASModels.RNGkEpsilonStab
